import Mathlib

/-!
Verification development for the TTS abstraction + audio-caching pipeline of
the phantom-vrm repository (`src/tts/index.js`, `src/tts/piper.js`,
`src/tts/voicevox.js`, `src/tts/api.js`, and the `/api/speak` and `/api/tts`
handlers in `src/config.js`).

The JavaScript code is embedded shallowly:
- filesystem state is a map from path to file size in bytes
  (only sizes ever matter to this subsystem: `getAudioDuration` reads
  `statSync(...).size`, the cache check reads `existsSync`);
- network and subprocess behaviour is supplied by an explicit environment
  value describing what each external call would do;
- a `synthesize` call is a pure function from (environment, filesystem,
  text, output directory) to (outcome, new filesystem, list of performed
  effects); the outcome distinguishes a resolved promise, a rejected
  promise, and an exception thrown in an event callback (which crashes the
  Node process rather than rejecting);
- the MD5 digest is an arbitrary deterministic function, passed as a
  parameter `hashFn`; nothing proved here depends on its concrete values;
- JavaScript numbers are modelled as exact rationals (ℚ); every numeric
  fact stated below is robust to the difference between ℚ and IEEE doubles
  (it only distinguishes integers from values strictly between two
  integers, and the concrete divisions involved are exact in both models).
-/

namespace PhantomVRM

/-- JS `Math.round`: `⌊x + 1/2⌋` (round half towards +∞). -/
def jsRound (q : ℚ) : ℤ := ⌊q + 1/2⌋

/-- `estimateDuration(text)` — duplicated verbatim in `src/tts/index.js`,
`src/tts/piper.js`, `src/tts/voicevox.js`, `src/tts/api.js` and
`src/config.js`:
`const charsPerSecond = 12; return Math.max(500, (text.length / charsPerSecond) * 1000);`
Note: the source applies NO rounding. -/
def estimateDuration (text : String) : ℚ :=
  max 500 ((text.length : ℚ) / 12 * 1000)

/-- Filesystem state: path ↦ size in bytes of the file there (if any). -/
def FS : Type := String → Option Nat

/-- The empty filesystem. -/
def emptyFS : FS := fun _ => none

/-- Writing a file of `size` bytes at `p` (`fs.writeFileSync` /
a completed write stream / an external process writing its output file). -/
def fsWrite (fsys : FS) (p : String) (size : Nat) : FS :=
  fun q => if q = p then some size else fsys q

/-- `path.join(dir, name)` for the simple two-component joins the adapters
perform. -/
def pathJoin (dir name : String) : String := dir ++ "/" ++ name

/-- `getAudioDuration(filePath)` from `src/tts/api.js`:
file-size based duration estimate, `Math.round((stats.size / 16000) * 1000)`
when the file exists, `0` otherwise. -/
def getAudioDuration (fsys : FS) (filePath : String) : ℚ :=
  match fsys filePath with
  | some size => ((jsRound ((size : ℚ) / 16000 * 1000) : ℤ) : ℚ)
  | none => 0

/-- Observable side effects an adapter performs, in order. -/
inductive Effect where
  /-- `fs.existsSync(p)` -/
  | fsCheck (p : String)
  /-- a file of `size` bytes appearing at `p` -/
  | fsWriteFile (p : String) (size : Nat)
  /-- one HTTP request to `host` -/
  | netRequest (host : String)
  /-- one external process invocation -/
  | procExec (cmd : String)
deriving DecidableEq

/-- Network requests and process invocations, the effects the cache is
meant to avoid repeating. -/
def Effect.isNetOrProc : Effect → Bool
  | netRequest _ => true
  | procExec _ => true
  | _ => false

/-- The uniform synthesis result `{audioUrl, duration}`. -/
structure SynthesisResult where
  audioUrl : Option String
  duration : ℚ
deriving DecidableEq

/-- Errors a synthesis call can reject with. -/
inductive JsErr where
  /-- `reject(new Error('<provider> API error: <status> ...'))` -/
  | apiError (provider : String) (status : Nat)
  /-- the write stream for the response body emitted `error` -/
  | streamError
  /-- generic adapter: `Failed to parse JSON response` (also covers a
  `TypeError` from `Buffer.from` on a non-string value, thrown inside the
  same `try`) -/
  | jsonParseError
  /-- generic adapter: `Audio data not found in response` -/
  | audioDataNotFound
  /-- an unresolved identifier was referenced -/
  | referenceError (ident : String)
  /-- `execSync` threw (non-zero exit or timeout) -/
  | execError
deriving DecidableEq

/-- How one `synthesize(text, outputDir)` call ends. -/
inductive SynthOutcome where
  /-- the returned promise resolves with `r` -/
  | ok (r : SynthesisResult)
  /-- the returned promise rejects with `e` -/
  | rejected (e : JsErr)
  /-- an exception escaped inside an event callback: the process crashes,
  the promise neither resolves nor rejects -/
  | crashed
deriving DecidableEq

/-- A synthesis run: outcome, resulting filesystem, effects performed. -/
def SynthRun : Type := SynthOutcome × FS × List Effect

/-- `createDummyTTS().synthesize` (`src/tts/index.js` and `src/tts/api.js`):
always resolves with null audio and the text estimate, touching nothing. -/
def dummySynth (fsys : FS) (text : String) : SynthRun :=
  (.ok ⟨none, estimateDuration text⟩, fsys, [])

/-- What the `execSync` invocation of piper does in the current
environment. -/
inductive PiperExec where
  /-- `execSync` throws (missing binary at run time, non-zero exit,
  30 s timeout) -/
  | throws
  /-- the command completes and the output file of `size` bytes exists -/
  | writesFile (size : Nat)
  /-- the command completes but no output file was produced -/
  | completesNoFile
deriving DecidableEq

/-- `createPiperTTS(config).synthesize` (`src/tts/piper.js`).
`available` is the construction-time `which <command>` probe.
Order of the source: md5 cache check; unavailable short-circuit; `execSync`
of the echo-pipe command inside `try`; final `existsSync` re-check. -/
def piperSynth (hashFn : String → String) (ex : PiperExec)
    (available : Bool) (command model : String)
    (fsys : FS) (text outputDir : String) : SynthRun :=
  let hash := hashFn text
  let outputFile := pathJoin outputDir (hash ++ ".wav")
  if (fsys outputFile).isSome then
    (.ok ⟨some ("/audio/" ++ hash ++ ".wav"), estimateDuration text⟩, fsys,
      [.fsCheck outputFile])
  else if !available then
    (.ok ⟨none, estimateDuration text⟩, fsys, [.fsCheck outputFile])
  else
    let escapedText := text.replace "\"" "\\\""
    let cmd := "echo \"" ++ escapedText ++ "\" | " ++ command ++ " --model "
      ++ model ++ " --output_file \"" ++ outputFile ++ "\""
    match ex with
    | .throws =>
        (.ok ⟨none, estimateDuration text⟩, fsys,
          [.fsCheck outputFile, .procExec cmd])
    | .writesFile size =>
        (.ok ⟨some ("/audio/" ++ hash ++ ".wav"), estimateDuration text⟩,
          fsWrite fsys outputFile size,
          [.fsCheck outputFile, .procExec cmd, .fsWriteFile outputFile size,
            .fsCheck outputFile])
    | .completesNoFile =>
        (.ok ⟨none, estimateDuration text⟩, fsys,
          [.fsCheck outputFile, .procExec cmd, .fsCheck outputFile])

/-- The names resolvable from the body of `createCustomTTS(...).synthesize`
in `src/tts/index.js`: its own locals (`hash`, then the parameters), the
enclosing closure's bindings (`config`, `execSync`), the module's top-level
declarations and requires, and CommonJS/Node globals. The module requires
`./piper`, `./voicevox` and `./api` at top level and `child_process` and
`crypto` locally — it never requires or declares `path`. -/
def customSynthesizeScopeNames : List String :=
  ["text", "outputDir", "hash",
   "config", "execSync",
   "createPiperTTS", "createVoicevoxTTS",
   "createOpenAITTS", "createGoogleTTS", "createAzureTTS",
   "createGenericAPITTS",
   "createTTSEngine", "createCustomTTS", "createDummyTTS",
   "estimateDuration",
   "require", "module", "exports", "console"]

/-- Whether the identifier `path` resolves at the
`path.join(outputDir, ...)` expression inside
`createCustomTTS(...).synthesize`. -/
def customScopeBindsPath : Bool := customSynthesizeScopeNames.contains "path"

/-- `createCustomTTS(config).synthesize` (`src/tts/index.js`, lines 53-67),
for a configured (truthy) `config.command`.  The body computes the md5
hash and then evaluates `path.join(outputDir, hash + '.wav')`; since the
module never binds `path`, that reference throws a `ReferenceError` inside
the `async` function, rejecting the promise before the command runs.
`exec` describes what `execSync(cmd, {timeout: 30000})` would do in the
(unreachable) branch where `path` did resolve. -/
def customSynth (hashFn : String → String) (exec : Except Unit Nat)
    (command : String) (fsys : FS) (text outputDir : String) : SynthRun :=
  let hash := hashFn text
  if customScopeBindsPath then
    let outputFile := pathJoin outputDir (hash ++ ".wav")
    let cmd := (command.replace "{text}" ("\"" ++ text ++ "\"")).replace
      "{output}" outputFile
    match exec with
    | .error _ => (.rejected .execError, fsys, [.procExec cmd])
    | .ok size =>
        (.ok ⟨some ("/audio/" ++ hash ++ ".wav"), estimateDuration text⟩,
          fsWrite fsys outputFile size,
          [.procExec cmd, .fsWriteFile outputFile size])
  else
    (.rejected (.referenceError "path"), fsys, [])

/-- Outcome of one `httpPost` / `httpPostBinary` call of
`src/tts/voicevox.js`: either the promise rejects (socket error or
timeout), or it resolves with a value. For the `audio_query` call only
the JS truthiness of the resolved value matters to the adapter
(`if (!queryResult) throw ...`); for the `synthesis` call only the byte
count of the concatenated buffer matters (a `Buffer` object is always
truthy). -/
structure VoicevoxEnv where
  /-- `audio_query`: `.error` = rejected; `.ok b` = resolved with a value
  of truthiness `b` -/
  queryOutcome : Except Unit Bool
  /-- `synthesis`: `.error` = rejected; `.ok n` = resolved with an
  `n`-byte buffer -/
  synthOutcome : Except Unit Nat

/-- `createVoicevoxTTS(config).synthesize` (`src/tts/voicevox.js`).
md5 of the text alone keys the cache; the whole two-step protocol sits in
one `try` whose `catch` returns null audio plus the text estimate, so this
adapter never rejects. On success the buffer is written and the TEXT
estimate (not a file-based duration) is returned. -/
def voicevoxSynth (hashFn : String → String) (env : VoicevoxEnv)
    (baseUrl : String) (fsys : FS) (text outputDir : String) : SynthRun :=
  let hash := hashFn text
  let outputFile := pathJoin outputDir (hash ++ ".wav")
  if (fsys outputFile).isSome then
    (.ok ⟨some ("/audio/" ++ hash ++ ".wav"), estimateDuration text⟩, fsys,
      [.fsCheck outputFile])
  else
    let queryEff := Effect.netRequest (baseUrl ++ "/audio_query")
    match env.queryOutcome with
    | .error _ =>
        (.ok ⟨none, estimateDuration text⟩, fsys, [.fsCheck outputFile, queryEff])
    | .ok truthy =>
        if !truthy then
          (.ok ⟨none, estimateDuration text⟩, fsys, [.fsCheck outputFile, queryEff])
        else
          let synthEff := Effect.netRequest (baseUrl ++ "/synthesis")
          match env.synthOutcome with
          | .error _ =>
              (.ok ⟨none, estimateDuration text⟩, fsys,
                [.fsCheck outputFile, queryEff, synthEff])
          | .ok size =>
              (.ok ⟨some ("/audio/" ++ hash ++ ".wav"), estimateDuration text⟩,
                fsWrite fsys outputFile size,
                [.fsCheck outputFile, queryEff, synthEff,
                  .fsWriteFile outputFile size])

/-- Fate of a response body streamed to a file via
`res.pipe(fs.createWriteStream(outputFile))`. -/
inductive StreamOutcome where
  /-- the stream finishes after writing `size` bytes -/
  | complete (size : Nat)
  /-- the stream errors after `written` bytes are already on disk -/
  | failsAfter (written : Nat)
deriving DecidableEq

/-- Environment for the OpenAI and Azure adapters: status code of the one
HTTPS request, and what the piped body stream does on a 200. -/
structure HostedEnv where
  statusCode : Nat
  stream : StreamOutcome
deriving DecidableEq

/-- Shared shape of `createOpenAITTS` / `createAzureTTS` `synthesize`
(`src/tts/api.js`): md5(text + voice) keyed cache returning a file-size
duration on a hit; one authenticated request; non-200 rejects with the
provider error; on 200 the body is piped STRAIGHT INTO the canonical cache
path — `finish` resolves with the file-size duration, a stream error
rejects, leaving whatever bytes were already written at that path. -/
def hostedStreamSynth (hashFn : String → String) (env : HostedEnv)
    (provider host voice : String) (fsys : FS) (text outputDir : String) :
    SynthRun :=
  let hash := hashFn (text ++ voice)
  let outputFile := pathJoin outputDir (hash ++ ".mp3")
  if (fsys outputFile).isSome then
    (.ok ⟨some ("/audio/" ++ hash ++ ".mp3"), getAudioDuration fsys outputFile⟩,
      fsys, [.fsCheck outputFile])
  else if env.statusCode ≠ 200 then
    (.rejected (.apiError provider env.statusCode), fsys,
      [.fsCheck outputFile, .netRequest host])
  else
    match env.stream with
    | .complete size =>
        let fsys2 := fsWrite fsys outputFile size
        (.ok ⟨some ("/audio/" ++ hash ++ ".mp3"), getAudioDuration fsys2 outputFile⟩,
          fsys2, [.fsCheck outputFile, .netRequest host, .fsWriteFile outputFile size])
    | .failsAfter written =>
        (.rejected .streamError, fsWrite fsys outputFile written,
          [.fsCheck outputFile, .netRequest host, .fsWriteFile outputFile written])

/-- `createOpenAITTS(config).synthesize`: cache key md5(text + voice). -/
def openaiSynth (hashFn : String → String) (env : HostedEnv) (voice : String)
    (fsys : FS) (text outputDir : String) : SynthRun :=
  hostedStreamSynth hashFn env "openai" "api.openai.com" voice fsys text outputDir

/-- `createAzureTTS(config).synthesize`: cache key md5(text + voice),
request to `<region>.tts.speech.microsoft.com`. -/
def azureSynth (hashFn : String → String) (env : HostedEnv)
    (voice region : String) (fsys : FS) (text outputDir : String) : SynthRun :=
  hostedStreamSynth hashFn env "azure" (region ++ ".tts.speech.microsoft.com")
    voice fsys text outputDir

/-- Body of the Google response on a 200, as seen by the un-guarded
`res.on('end')` callback: `JSON.parse` and `Buffer.from(audioContent,
'base64')` run OUTSIDE any try/catch, so a malformed body or a missing
`audioContent` field throws in the event callback and crashes the
process. -/
inductive GoogleBody where
  /-- body is not valid JSON: `JSON.parse` throws uncaught -/
  | notJson
  /-- valid JSON without a usable `audioContent` string:
  `Buffer.from(undefined, 'base64')` throws uncaught -/
  | jsonNoAudioContent
  /-- valid JSON whose `audioContent` decodes to `size` bytes -/
  | jsonAudio (size : Nat)
deriving DecidableEq

/-- `createGoogleTTS(config).synthesize` (`src/tts/api.js`): cache key
md5(text + languageCode + (voiceName or '')); non-200 rejects; on 200 the
JSON body is parsed, `audioContent` base64-decoded and written with
`writeFileSync`, and the call resolves with the file-size duration. -/
def googleSynth (hashFn : String → String) (status : Nat) (body : GoogleBody)
    (languageCode : String) (voiceName : Option String)
    (fsys : FS) (text outputDir : String) : SynthRun :=
  let hash := hashFn (text ++ languageCode ++ voiceName.getD "")
  let outputFile := pathJoin outputDir (hash ++ ".mp3")
  let host := "texttospeech.googleapis.com"
  if (fsys outputFile).isSome then
    (.ok ⟨some ("/audio/" ++ hash ++ ".mp3"), getAudioDuration fsys outputFile⟩,
      fsys, [.fsCheck outputFile])
  else if status ≠ 200 then
    (.rejected (.apiError "google" status), fsys,
      [.fsCheck outputFile, .netRequest host])
  else
    match body with
    | .notJson => (.crashed, fsys, [.fsCheck outputFile, .netRequest host])
    | .jsonNoAudioContent => (.crashed, fsys, [.fsCheck outputFile, .netRequest host])
    | .jsonAudio size =>
        let fsys2 := fsWrite fsys outputFile size
        (.ok ⟨some ("/audio/" ++ hash ++ ".mp3"), getAudioDuration fsys2 outputFile⟩,
          fsys2, [.fsCheck outputFile, .netRequest host, .fsWriteFile outputFile size])

/-- A JSON value, for the generic adapter's configured response path. -/
inductive JData where
  | jnull
  | jbool (b : Bool)
  | jnum (q : ℚ)
  | jstr (s : String)
  | jobj (fields : List (String × JData))

/-- `obj?.[key]` along the dotted path: property lookup on an object,
`undefined` on anything else (modelled as `none`). -/
def jGet : JData → String → Option JData
  | JData.jobj fields, key => (fields.find? (fun kv => kv.fst == key)).map Prod.snd
  | _, _ => none

/-- `audioPath.split('.').reduce((obj, key) => obj?.[key], json)`. -/
def jPathExtract (pathSpec : String) (v : JData) : Option JData :=
  (pathSpec.splitOn ".").foldl (fun acc key => acc.bind (fun j => jGet j key)) (some v)

/-- JS truthiness of a parsed JSON value (`if (audioData)`). -/
def jTruthy : JData → Bool
  | .jnull => false
  | .jbool b => b
  | .jnum q => decide (q ≠ 0)
  | .jstr s => s ≠ ""
  | .jobj _ => true

/-- Decoded byte count of a base64 string, ignoring padding characters —
an approximation of Node's decoder; no theorem below depends on the exact
value. -/
def b64DecodedSize (s : String) : Nat := s.length * 3 / 4

/-- `Buffer.from(audioData, 'base64')` when `audioData` came out of
`JSON.parse`: a string decodes to its base64 byte count; any other
(truthy) value makes `Buffer.from` throw a `TypeError`, which the
surrounding `try` catches. -/
def jAudioBytes : JData → Option Nat
  | .jstr s => some (b64DecodedSize s)
  | _ => none

/-- `String.prototype.includes`: `pat` occurs contiguously in `s`. -/
def strIncludes (s pat : String) : Bool :=
  (List.range (s.length + 1)).any (fun i => pat.data.isPrefixOf (s.data.drop i))

/-- The response the generic adapter's single request receives. The
adapter reads ONLY the `content-type` header and the body — it never
inspects `statusCode` (kept here to document that). -/
structure GenericEnv where
  statusCode : Nat
  contentType : String
  /-- byte count of the raw body buffer -/
  rawSize : Nat
  /-- `JSON.parse` of the body text: `none` = throws (malformed) -/
  parsed : Option JData

/-- `createGenericAPITTS(config).synthesize` (`src/tts/api.js`): cache key
md5(text + url); one request; if `content-type` includes
`application/json` the body is parsed (failure rejects), the configured
dotted `audioPath` is extracted (absence or a falsy value rejects with
`Audio data not found`, a truthy non-string rejects out of the same
`catch`), and the decoded bytes are written; ANY other content type —
including on a non-2xx status — is written verbatim as audio and the call
resolves. -/
def genericSynth (hashFn : String → String) (env : GenericEnv)
    (url audioPath audioFormat : String)
    (fsys : FS) (text outputDir : String) : SynthRun :=
  let hash := hashFn (text ++ url)
  let outputFile := pathJoin outputDir (hash ++ "." ++ audioFormat)
  if (fsys outputFile).isSome then
    (.ok ⟨some ("/audio/" ++ hash ++ "." ++ audioFormat),
        getAudioDuration fsys outputFile⟩, fsys, [.fsCheck outputFile])
  else
    let baseEff := [Effect.fsCheck outputFile, Effect.netRequest url]
    if strIncludes env.contentType "application/json" then
      match env.parsed with
      | none => (.rejected .jsonParseError, fsys, baseEff)
      | some v =>
          match jPathExtract audioPath v with
          | none => (.rejected .audioDataNotFound, fsys, baseEff)
          | some d =>
              if jTruthy d then
                match jAudioBytes d with
                | none => (.rejected .jsonParseError, fsys, baseEff)
                | some size =>
                    let fsys2 := fsWrite fsys outputFile size
                    (.ok ⟨some ("/audio/" ++ hash ++ "." ++ audioFormat),
                        getAudioDuration fsys2 outputFile⟩, fsys2,
                      baseEff ++ [.fsWriteFile outputFile size])
              else (.rejected .audioDataNotFound, fsys, baseEff)
    else
      let fsys2 := fsWrite fsys outputFile env.rawSize
      (.ok ⟨some ("/audio/" ++ hash ++ "." ++ audioFormat),
          getAudioDuration fsys2 outputFile⟩, fsys2,
        baseEff ++ [.fsWriteFile outputFile env.rawSize])

/-- The constructed adapters, carrying the configuration slice each
constructor closed over. -/
inductive Adapter where
  | piper (available : Bool) (command model : String)
  | voicevox (baseUrl : String)
  | openai (voice : String)
  | google (languageCode : String) (voiceName : Option String)
  | azure (voice region : String)
  | generic (url audioPath audioFormat : String)
  | custom (command : String)
  | dummy

/-- Everything the outside world decides during one synthesize call. -/
structure Env where
  piperExec : PiperExec
  voicevox : VoicevoxEnv
  hosted : HostedEnv
  googleStatus : Nat
  googleBody : GoogleBody
  generic : GenericEnv
  customExec : Except Unit Nat

/-- One `synthesize(text, outputDir)` call of the given adapter. -/
def runSynthesize (hashFn : String → String) (env : Env) (a : Adapter)
    (fsys : FS) (text outputDir : String) : SynthRun :=
  match a with
  | .piper available command model =>
      piperSynth hashFn env.piperExec available command model fsys text outputDir
  | .voicevox baseUrl =>
      voicevoxSynth hashFn env.voicevox baseUrl fsys text outputDir
  | .openai voice =>
      openaiSynth hashFn env.hosted voice fsys text outputDir
  | .google lang vname =>
      googleSynth hashFn env.googleStatus env.googleBody lang vname fsys text outputDir
  | .azure voice region =>
      azureSynth hashFn env.hosted voice region fsys text outputDir
  | .generic url audioPath fmt =>
      genericSynth hashFn env.generic url audioPath fmt fsys text outputDir
  | .custom command =>
      customSynth hashFn env.customExec command fsys text outputDir
  | .dummy => dummySynth fsys text

/-- The voice-affecting cache-key input each adapter hashes: a function of
the text and the adapter's configuration only. -/
def cacheKeyInput (a : Adapter) (text : String) : String :=
  match a with
  | .piper _ _ _ => text
  | .voicevox _ => text
  | .openai voice => text ++ voice
  | .google lang vname => text ++ lang ++ vname.getD ""
  | .azure voice _ => text ++ voice
  | .generic url _ _ => text ++ url
  | .custom _ => text
  | .dummy => text

/-- The audio file extension each adapter uses. -/
def cacheExt (a : Adapter) : String :=
  match a with
  | .piper _ _ _ => "wav"
  | .voicevox _ => "wav"
  | .openai _ => "mp3"
  | .google _ _ => "mp3"
  | .azure _ _ => "mp3"
  | .generic _ _ fmt => fmt
  | .custom _ => "wav"
  | .dummy => "wav"

/-- The canonical cache path an adapter reads and writes for a text. -/
def cachePath (hashFn : String → String) (a : Adapter)
    (text outputDir : String) : String :=
  pathJoin outputDir (hashFn (cacheKeyInput a text) ++ "." ++ cacheExt a)

/-- The public URL an adapter returns for produced audio: determined by
the hash of the cache-key input and the format alone. -/
def audioUrlOf (hashFn : String → String) (a : Adapter) (text : String) : String :=
  "/audio/" ++ hashFn (cacheKeyInput a text) ++ "." ++ cacheExt a

/-- JS `a || b` on possibly-absent strings: an absent or empty (falsy)
`a` falls through to `b`. -/
def jsOrStr (a b : Option String) : Option String :=
  match a with
  | some s => if s = "" then b else some s
  | none => b

/-- `if (!x)` on a possibly-absent string: absent or empty is falsy. -/
def jsFalsyStr (a : Option String) : Bool :=
  match a with
  | some s => s = ""
  | none => true

/-- The `tts.piper` configuration slice. -/
structure PiperCfg where
  command : Option String := none
  model : Option String := none

/-- The `tts.voicevox` configuration slice (only the fields the embedding
uses; speaker/pitch/speed/intonation do not enter the cache key or any
claim). -/
structure VoicevoxCfg where
  url : Option String := none

/-- The `tts.openai` configuration slice. -/
structure OpenAICfg where
  apiKey : Option String := none
  model : Option String := none
  voice : Option String := none

/-- The `tts.google` configuration slice. -/
structure GoogleCfg where
  apiKey : Option String := none
  languageCode : Option String := none
  voiceName : Option String := none

/-- The `tts.azure` configuration slice. -/
structure AzureCfg where
  subscriptionKey : Option String := none
  region : Option String := none
  voice : Option String := none

/-- The `tts.api` (generic hosted) configuration slice. -/
structure GenericCfg where
  url : Option String := none
  audioPath : Option String := none
  outputFormat : Option String := none

/-- The `tts.custom` configuration slice. -/
structure CustomCfg where
  command : Option String := none

/-- The whole `tts` configuration object handed to `createTTSEngine`. -/
structure TTSConfig where
  engine : Option String := none
  piper : Option PiperCfg := none
  voicevox : Option VoicevoxCfg := none
  openai : Option OpenAICfg := none
  google : Option GoogleCfg := none
  azure : Option AzureCfg := none
  api : Option GenericCfg := none
  custom : Option CustomCfg := none

/-- Process-wide state the constructors consult: environment variables and
whether `which <piper-command>` succeeds. -/
structure ConstructEnv where
  piperWhichSucceeds : Bool := true
  openaiKeyVar : Option String := none
  googleKeyVar : Option String := none
  azureKeyVar : Option String := none
  azureRegionVar : Option String := none

/-- `createTTSEngine(config)` (`src/tts/index.js`) together with the eager
validation each constructor performs (`src/tts/piper.js`,
`src/tts/index.js`, `src/tts/api.js`). Returns the constructed adapter and
the list of `console.warn` messages emitted. `config?.engine || 'none'`
sends an absent or empty tag to the `'none'` case — WITHOUT a warning; only
a genuinely unknown tag reaches the warning `default:` branch. Hosted
constructors missing their credential, the generic constructor missing its
URL, and the custom constructor missing its command all degrade to the
dummy adapter (the custom one silently). -/
def createTTSEngine (cenv : ConstructEnv) (cfg : TTSConfig) :
    Adapter × List String :=
  let engine := match cfg.engine with
    | none => "none"
    | some e => if e = "" then "none" else e
  if engine = "piper" then
    let c := cfg.piper.getD {}
    let command := (jsOrStr c.command (some "piper")).getD "piper"
    let model := (jsOrStr c.model (some "ja_JP-test-medium")).getD "ja_JP-test-medium"
    if cenv.piperWhichSucceeds then (.piper true command model, [])
    else (.piper false command model, ["Piper not found, using fake lipsync"])
  else if engine = "voicevox" then
    let c := cfg.voicevox.getD {}
    let baseUrl := (jsOrStr c.url (some "http://localhost:50021")).getD ""
    (.voicevox baseUrl, [])
  else if engine = "openai" then
    let c := cfg.openai.getD {}
    let apiKey := jsOrStr c.apiKey cenv.openaiKeyVar
    if jsFalsyStr apiKey then
      (.dummy, ["OpenAI API key not found. Set OPENAI_API_KEY environment variable or tts.openai.apiKey in config."])
    else
      (.openai ((jsOrStr c.voice (some "alloy")).getD "alloy"), [])
  else if engine = "google" then
    let c := cfg.google.getD {}
    let apiKey := jsOrStr c.apiKey cenv.googleKeyVar
    if jsFalsyStr apiKey then
      (.dummy, ["Google API key not found. Set GOOGLE_API_KEY environment variable or tts.google.apiKey in config."])
    else
      (.google ((jsOrStr c.languageCode (some "en-US")).getD "en-US")
        (match c.voiceName with
          | some v => if v = "" then none else some v
          | none => none), [])
  else if engine = "azure" then
    let c := cfg.azure.getD {}
    let key := jsOrStr c.subscriptionKey cenv.azureKeyVar
    if jsFalsyStr key then
      (.dummy, ["Azure Speech key not found. Set AZURE_SPEECH_KEY environment variable or tts.azure.subscriptionKey in config."])
    else
      (.azure ((jsOrStr c.voice (some "en-US-JennyNeural")).getD "en-US-JennyNeural")
        ((jsOrStr (jsOrStr c.region cenv.azureRegionVar) (some "eastus")).getD "eastus"), [])
  else if engine = "api" then
    let c := cfg.api.getD {}
    if jsFalsyStr c.url then
      (.dummy, ["Generic API TTS: url not configured"])
    else
      (.generic (c.url.getD "")
        ((jsOrStr c.audioPath (some "audio")).getD "audio")
        ((jsOrStr c.outputFormat (some "mp3")).getD "mp3"), [])
  else if engine = "custom" then
    let c := cfg.custom.getD {}
    if jsFalsyStr c.command then (.dummy, [])
    else (.custom (c.command.getD ""), [])
  else if engine = "none" then
    (.dummy, [])
  else
    (.dummy, ["Unknown TTS engine: " ++ engine ++ ", using none"])

/-- The engine tags `createTTSEngine` recognizes. -/
def knownEngineTags : List String :=
  ["piper", "voicevox", "openai", "google", "azure", "api", "custom", "none"]

/-- A member of a JSON response body (`res.json({...})` serializes `null`
values but omits absent keys entirely). -/
structure HttpResponse where
  status : Nat
  fields : List (String × JData)

/-- Look a member up in a serialized JSON object. -/
def lookupField (resp : HttpResponse) (key : String) : Option JData :=
  (resp.fields.find? (fun kv => kv.fst == key)).map Prod.snd

/-- A JS value placed in a response object: `null` or a string. -/
def jOfOptStr : Option String → JData
  | some s => .jstr s
  | none => .jnull

/-- The `/api/speak` handler (`src/config.js`, lines 413-442), given the
settled outcome of `await ttsEngine.synthesize(text, audioDir)` (`.error`
= the promise rejected and control reached the `catch`). Returns the HTTP
response and the messages pushed onto the client's polling queue. Empty
(falsy) text is answered 400 before any synthesis. On success the response
carries `success` and `audioUrl` (serialized even when null); on rejection
it carries `success` and the config-local `estimateDuration(text)` — and
NO `audioUrl` member at all. -/
def speakHandler (text : String) (expression : Option String)
    (synth : Except JsErr SynthesisResult) :
    HttpResponse × List (List (String × JData)) :=
  if text = "" then
    (⟨400, [("error", .jstr "text required")]⟩, [])
  else
    let exprQueue : List (List (String × JData)) :=
      match expression with
      | some e => if e = "" then [] else [[("expression", .jstr e)]]
      | none => []
    match synth with
    | .ok r =>
        (⟨200, [("success", .jbool true), ("audioUrl", jOfOptStr r.audioUrl)]⟩,
          exprQueue ++ [[("text", .jstr text), ("audioUrl", jOfOptStr r.audioUrl),
            ("duration", .jnum r.duration)]])
    | .error _ =>
        (⟨200, [("success", .jbool true), ("duration", .jnum (estimateDuration text))]⟩,
          exprQueue ++ [[("text", .jstr text), ("duration", .jnum (estimateDuration text))]])

/-- The `/api/tts` handler (`src/config.js`, lines 458-478): same fallback
shape without the message queue. -/
def ttsHandler (text : String) (synth : Except JsErr SynthesisResult) :
    HttpResponse :=
  if text = "" then
    ⟨400, [("error", .jstr "text required")]⟩
  else
    match synth with
    | .ok r =>
        ⟨200, [("success", .jbool true), ("audioUrl", jOfOptStr r.audioUrl),
          ("duration", .jnum r.duration)]⟩
    | .error _ =>
        ⟨200, [("success", .jbool true), ("duration", .jnum (estimateDuration text))]⟩

/-! ### Shared helper lemmas and concrete instances -/

/-- A concrete stand-in digest for witnesses (any deterministic function
is a valid instance of the `hashFn` parameter). -/
def hash0 : String → String := fun _ => "k"

/-- A concrete environment: every external call fails. -/
def env0 : Env where
  piperExec := .throws
  voicevox := ⟨.error (), .error ()⟩
  hosted := ⟨500, .failsAfter 0⟩
  googleStatus := 500
  googleBody := .notJson
  generic := ⟨500, "text/plain", 0, none⟩
  customExec := .error ()

/-- A 7-character text (its estimate is the non-integer 1750/3 ms). -/
def text7 : String := String.mk (List.replicate 7 'a')

/-- A 120-character text. -/
def text120 : String := String.mk (List.replicate 120 'a')

/-- The estimator as the spec words it: with rounding. (Comparison
definition for the refinement claim; the source applies no rounding.) -/
def specEstimateRounded (n : Nat) : ℤ :=
  max 500 (jsRound ((1000 * n : ℚ) / 12))

/-- A duration the pipeline can actually hand out: nonnegative, and either
an integer (file-size derived) or at least 500 (the text estimate). -/
def GoodDuration (q : ℚ) : Prop := 0 ≤ q ∧ ((∃ z : ℤ, q = (z : ℚ)) ∨ 500 ≤ q)

/-- The generic-adapter response used for C6's counterexample: an HTTP 500
whose body is a plain-text error page. -/
def genv500 : GenericEnv := ⟨500, "text/plain", 12, none⟩

/-- The second of two consecutive `synthesize` calls: it runs on the
filesystem the first call left behind (the second call's external
environment is arbitrary — the point is that it is never consulted). -/
def secondRun (hashFn : String → String) (env1 env2 : Env) (a : Adapter)
    (fsys : FS) (text outputDir : String) : SynthRun :=
  runSynthesize hashFn env2 a
    (runSynthesize hashFn env1 a fsys text outputDir).2.1 text outputDir

theorem estimateDuration_ge_500 (t : String) : 500 ≤ estimateDuration t :=
  le_max_left _ _

theorem getAudioDuration_nonneg (fsys : FS) (p : String) :
    0 ≤ getAudioDuration fsys p := by
  unfold getAudioDuration
  cases h : fsys p with
  | none => simp
  | some size =>
      simp only
      have hle : (0 : ℤ) ≤ jsRound ((size : ℚ) / 16000 * 1000) := by
        rw [jsRound, Int.le_floor]
        have : (0 : ℚ) ≤ (size : ℚ) / 16000 * 1000 := by positivity
        push_cast
        linarith
      exact_mod_cast hle

theorem getAudioDuration_den (fsys : FS) (p : String) :
    (getAudioDuration fsys p).den = 1 := by
  unfold getAudioDuration
  cases h : fsys p with
  | none => rfl
  | some size => exact Rat.den_intCast _

theorem getAudioDuration_fsWrite (fsys : FS) (p : String) (n : Nat) :
    getAudioDuration (fsWrite fsys p n) p =
      ((jsRound ((n : ℚ) / 16000 * 1000) : ℤ) : ℚ) := by
  simp [getAudioDuration, fsWrite]

theorem fsWrite_ne (fsys : FS) (p q : String) (n : Nat) (h : q ≠ p) :
    fsWrite fsys p n q = fsys q := by
  simp [fsWrite, h]

/-! ### C2 — the Duration Estimator formula -/

/-- C2 counterexample: on a 7-character text the source estimator returns
the non-integral 1750/3 ≈ 583.33 ms, while the claimed formula
`max(500, round(1000·7/12))` gives exactly 583; the claim's equation fails. -/
theorem c2_counterexample :
    estimateDuration text7 = 1750 / 3 ∧
    specEstimateRounded text7.length = 583 ∧
    estimateDuration text7 ≠ ((specEstimateRounded text7.length : ℤ) : ℚ) := by
  refine ⟨by norm_num [estimateDuration, text7], ?_, ?_⟩
  · norm_num [specEstimateRounded, text7, jsRound]
  · norm_num [estimateDuration, specEstimateRounded, text7, jsRound]

/-- C2 (amended): for every string `t` the estimator returns exactly
`max(500, 1000·len(t)/12)` with NO rounding (the value may be a
non-integer rational); in particular a 120-character text yields exactly
10000. -/
theorem c2_estimator_formula (t : String) :
    estimateDuration t = max 500 ((1000 * t.length : ℚ) / 12) ∧
    (t.length = 120 → estimateDuration t = 10000) := by
  constructor
  · unfold estimateDuration
    congr 1
    ring
  · intro h
    unfold estimateDuration
    rw [h]
    norm_num

/-- C2 witness: the 120-character scenario, via `c2_estimator_formula`. -/
theorem c2_estimator_formula_witness : estimateDuration text120 = 10000 :=
  (c2_estimator_formula text120).2 (by decide)

/-! ### C4 — the Disabled (none) engine -/

/-- C4: the Disabled engine's `synthesize` always resolves with
`{audioUrl: null, duration: estimate(text)}`, leaves the filesystem
untouched, and performs no effect at all. -/
theorem c4_dummy_noop (hashFn : String → String) (env : Env) (fsys : FS)
    (text outputDir : String) :
    runSynthesize hashFn env .dummy fsys text outputDir =
      (SynthOutcome.ok ⟨none, estimateDuration text⟩, fsys, ([] : List Effect)) :=
  rfl

/-! ### C10 — the custom-command adapter always rejects -/

/-- C10: for every configured command, environment and input, the
custom-command adapter's `synthesize` rejects with a `ReferenceError` on
the unbound identifier `path` before performing any effect — it never
resolves and can never return an audioUrl. -/
theorem c10_custom_always_rejects (hashFn : String → String) (env : Env)
    (fsys : FS) (command text outputDir : String) :
    runSynthesize hashFn env (.custom command) fsys text outputDir =
      (SynthOutcome.rejected (JsErr.referenceError "path"), fsys,
        ([] : List Effect)) := by
  simp [runSynthesize, customSynth, customScopeBindsPath,
    customSynthesizeScopeNames]

/-! ### C5 — the engine factory / dispatcher -/

/-- C5 counterexample: with the engine tag ABSENT, dispatch returns the
Disabled adapter but emits NO warning (the `config?.engine || 'none'`
default routes to the silent `'none'` case), contradicting the claim that
an absent tag logs a warning. -/
theorem c5_counterexample :
    (createTTSEngine {} { engine := none }).1 = Adapter.dummy ∧
    (createTTSEngine {} { engine := none }).2 = [] :=
  ⟨rfl, rfl⟩

/-- C5 (amended): dispatch always returns an adapter and never throws; an
UNKNOWN engine tag logs the warning and returns the Disabled adapter,
while an absent (or empty) tag returns the Disabled adapter silently. -/
theorem c5_dispatch_total (cenv : ConstructEnv) (cfg : TTSConfig) :
    (∀ tag, cfg.engine = some tag → tag ∉ knownEngineTags → tag ≠ "" →
      createTTSEngine cenv cfg =
        (Adapter.dummy, ["Unknown TTS engine: " ++ tag ++ ", using none"])) ∧
    ((cfg.engine = none ∨ cfg.engine = some "") →
      createTTSEngine cenv cfg = (Adapter.dummy, [])) := by
  constructor
  · intro tag h hmem hne
    simp only [knownEngineTags, List.mem_cons, List.not_mem_nil, or_false] at hmem
    push_neg at hmem
    obtain ⟨h1, h2, h3, h4, h5, h6, h7, h8⟩ := hmem
    simp [createTTSEngine, h, hne, h1, h2, h3, h4, h5, h6, h7, h8]
  · rintro (h | h) <;> simp [createTTSEngine, h]

/-- C5 witness: an unknown tag `"foo"` warns and degrades; an absent tag
degrades silently. -/
theorem c5_dispatch_total_witness :
    createTTSEngine {} { engine := some "foo" } =
      (Adapter.dummy, ["Unknown TTS engine: foo, using none"]) ∧
    createTTSEngine {} { engine := none } = (Adapter.dummy, []) :=
  ⟨(c5_dispatch_total {} { engine := some "foo" }).1 "foo" rfl (by decide)
      (by decide),
    (c5_dispatch_total {} { engine := none }).2 (Or.inl rfl)⟩

/-! ### C1 — the HTTP call site's degraded fallback -/

/-- C1 counterexample: when the adapter rejects, the degraded `/api/tts`
response contains NO `audioUrl` member at all (a client reads `undefined`),
not an explicit `null` as the claim states. -/
theorem c1_counterexample :
    lookupField (ttsHandler "hi" (Except.error JsErr.streamError)) "audioUrl"
        ≠ some JData.jnull ∧
    lookupField (ttsHandler "hi" (Except.error JsErr.streamError)) "audioUrl"
        = none :=
  ⟨fun h => Option.noConfusion h, rfl⟩

/-- C1 (amended): for every non-empty text, if the active adapter's
`synthesize` rejects, both handlers catch the rejection and respond 200
(never 500) with `success: true` and `duration = estimate(text)`; the
degraded response body OMITS the `audioUrl` member (it is absent, not
null). -/
theorem c1_degraded_fallback (text : String) (expr : Option String)
    (e : JsErr) (h : text ≠ "") :
    (speakHandler text expr (.error e)).1 =
      ⟨200, [("success", .jbool true),
        ("duration", .jnum (estimateDuration text))]⟩ ∧
    ttsHandler text (.error e) =
      ⟨200, [("success", .jbool true),
        ("duration", .jnum (estimateDuration text))]⟩ ∧
    (speakHandler text expr (.error e)).1.status ≠ 500 ∧
    (ttsHandler text (.error e)).status ≠ 500 ∧
    lookupField (ttsHandler text (.error e)) "audioUrl" = none := by
  refine ⟨?_, ?_, ?_, ?_, ?_⟩ <;>
    simp [speakHandler, ttsHandler, lookupField, h]

/-- C1 witness: a rejected synthesis for the text `"hi"`. -/
theorem c1_degraded_fallback_witness :
    ttsHandler "hi" (.error JsErr.streamError) =
      ⟨200, [("success", .jbool true),
        ("duration", .jnum (estimateDuration "hi"))]⟩ ∧
    (ttsHandler "hi" (.error JsErr.streamError)).status ≠ 500 :=
  ⟨(c1_degraded_fallback "hi" none JsErr.streamError (by decide)).2.1,
    (c1_degraded_fallback "hi" none JsErr.streamError (by decide)).2.2.2.1⟩

/-! ### C9 — durations of resolved results -/

theorem goodDuration_estimate (text : String) :
    GoodDuration (estimateDuration text) :=
  ⟨le_trans (by norm_num) (estimateDuration_ge_500 text),
    Or.inr (estimateDuration_ge_500 text)⟩

theorem goodDuration_getAudio (fsys : FS) (p : String) :
    GoodDuration (getAudioDuration fsys p) := by
  refine ⟨getAudioDuration_nonneg fsys p, Or.inl ?_⟩
  unfold getAudioDuration
  cases fsys p with
  | none => exact ⟨0, by norm_num⟩
  | some size => exact ⟨_, rfl⟩

theorem goodDuration_of_ok {X r : SynthesisResult}
    (h : SynthOutcome.ok X = SynthOutcome.ok r)
    (hg : GoodDuration X.duration) : GoodDuration r.duration := by
  cases h; exact hg

/-- The value 1750/3 is not an integer. -/
theorem sevenCharEstimate_not_int : ∀ z : ℤ, ((1750 : ℚ) / 3) ≠ (z : ℚ) := by
  intro z h
  have h3 : (1750 : ℚ) = (z : ℚ) * 3 := by
    field_simp at h
    linarith
  have : (1750 : ℤ) = z * 3 := by exact_mod_cast h3
  omega

/-- C9 counterexample: the Disabled engine resolves a 7-character text with
duration 1750/3 ≈ 583.33 ms — present and ≥ 500 but NOT an integer, so
"durationMs is a positive integer" fails on the code. -/
theorem c9_counterexample :
    (runSynthesize hash0 env0 .dummy emptyFS text7 "out").1 =
      SynthOutcome.ok ⟨none, 1750 / 3⟩ ∧
    ∀ z : ℤ, ((1750 : ℚ) / 3) ≠ (z : ℚ) := by
  refine ⟨?_, sevenCharEstimate_not_int⟩
  show SynthOutcome.ok ⟨none, estimateDuration text7⟩ = _
  norm_num [estimateDuration, text7]

/-- C9 (amended): whenever any adapter's `synthesize` resolves, the
duration is present and nonnegative, and is either an integer (file-size
derived, possibly 0 for a missing or tiny file) or at least 500 ms (the
text estimate, possibly a non-integer rational). -/
theorem c9_duration_wellformed (hashFn : String → String) (env : Env)
    (a : Adapter) (fsys : FS) (text outputDir : String)
    (r : SynthesisResult)
    (h : (runSynthesize hashFn env a fsys text outputDir).1 = .ok r) :
    0 ≤ r.duration ∧ ((∃ z : ℤ, r.duration = (z : ℚ)) ∨ 500 ≤ r.duration) := by
  replace h := h.symm
  suffices hg : GoodDuration r.duration from hg
  cases a with
  | piper available command model =>
      simp only [runSynthesize, piperSynth] at h
      split at h
      · exact goodDuration_of_ok h.symm (goodDuration_estimate text)
      · split at h
        · exact goodDuration_of_ok h.symm (goodDuration_estimate text)
        · split at h <;>
            exact goodDuration_of_ok h.symm (goodDuration_estimate text)
  | voicevox baseUrl =>
      simp only [runSynthesize, voicevoxSynth] at h
      split at h
      · exact goodDuration_of_ok h.symm (goodDuration_estimate text)
      · split at h
        · exact goodDuration_of_ok h.symm (goodDuration_estimate text)
        · split at h
          · exact goodDuration_of_ok h.symm (goodDuration_estimate text)
          · split at h <;>
              exact goodDuration_of_ok h.symm (goodDuration_estimate text)
  | openai voice =>
      simp only [runSynthesize, openaiSynth, hostedStreamSynth] at h
      split at h
      · exact goodDuration_of_ok h.symm (goodDuration_getAudio _ _)
      · split at h
        · exact SynthOutcome.noConfusion h
        · split at h
          · exact goodDuration_of_ok h.symm (goodDuration_getAudio _ _)
          · exact SynthOutcome.noConfusion h
  | azure voice region =>
      simp only [runSynthesize, azureSynth, hostedStreamSynth] at h
      split at h
      · exact goodDuration_of_ok h.symm (goodDuration_getAudio _ _)
      · split at h
        · exact SynthOutcome.noConfusion h
        · split at h
          · exact goodDuration_of_ok h.symm (goodDuration_getAudio _ _)
          · exact SynthOutcome.noConfusion h
  | google lang vname =>
      simp only [runSynthesize, googleSynth] at h
      split at h
      · exact goodDuration_of_ok h.symm (goodDuration_getAudio _ _)
      · split at h
        · exact SynthOutcome.noConfusion h
        · split at h
          · exact SynthOutcome.noConfusion h
          · exact SynthOutcome.noConfusion h
          · exact goodDuration_of_ok h.symm (goodDuration_getAudio _ _)
  | generic url apath fmt =>
      simp only [runSynthesize, genericSynth] at h
      split at h
      · exact goodDuration_of_ok h.symm (goodDuration_getAudio _ _)
      · split at h
        · split at h
          · exact SynthOutcome.noConfusion h
          · split at h
            · exact SynthOutcome.noConfusion h
            · split at h
              · split at h
                · exact SynthOutcome.noConfusion h
                · exact goodDuration_of_ok h.symm (goodDuration_getAudio _ _)
              · exact SynthOutcome.noConfusion h
        · exact goodDuration_of_ok h.symm (goodDuration_getAudio _ _)
  | custom command =>
      simp only [runSynthesize, customSynth] at h
      split at h
      · split at h
        · exact SynthOutcome.noConfusion h
        · exact goodDuration_of_ok h.symm (goodDuration_estimate text)
      · exact SynthOutcome.noConfusion h
  | dummy =>
      exact goodDuration_of_ok h.symm (goodDuration_estimate text)

/-- C9 witness: the Disabled engine on a 7-character text. -/
theorem c9_duration_wellformed_witness :
    0 ≤ ((1750 : ℚ) / 3) ∧
    ((∃ z : ℤ, ((1750 : ℚ) / 3) = (z : ℚ)) ∨ 500 ≤ ((1750 : ℚ) / 3)) :=
  c9_duration_wellformed hash0 env0 .dummy emptyFS text7 "out"
    ⟨none, 1750 / 3⟩
    (by show SynthOutcome.ok ⟨none, estimateDuration text7⟩ = _
        norm_num [estimateDuration, text7])

/-! ### C7 — where durationMs comes from -/

/-- C7 counterexample: piper produces a REAL audio file of 16000 bytes
(whose size-based duration would be 1000 ms) for the 2-character text
`"hi"`, yet returns the text-length estimate 500 ms — so "every backend
that produces a real audio file derives durationMs from the file size" is
false. -/
theorem c7_counterexample :
    (piperSynth hash0 (.writesFile 16000) true "piper" "m" emptyFS "hi" "out").1
        = SynthOutcome.ok ⟨some "/audio/k.wav", 500⟩ ∧
    (piperSynth hash0 (.writesFile 16000) true "piper" "m" emptyFS "hi" "out").2.1
        "out/k.wav" = some 16000 ∧
    getAudioDuration
      (piperSynth hash0 (.writesFile 16000) true "piper" "m" emptyFS "hi" "out").2.1
      "out/k.wav" = 1000 ∧
    ((500 : ℚ)) ≠ 1000 := by
  refine ⟨?_, ?_, ?_, by norm_num⟩
  · show SynthOutcome.ok ⟨some "/audio/k.wav", estimateDuration "hi"⟩ = _
    norm_num [estimateDuration, show "hi".length = 2 from rfl]
  · rfl
  · show ((jsRound ((16000 : ℚ) / 16000 * 1000) : ℤ) : ℚ) = 1000
    norm_num [jsRound]

/-- C7 (amended): the four hosted adapters derive the duration of a fresh
successful synthesis from the produced file's size at the assumed 16 KB/s
bitrate, `round(1000·size/16000)`; the local piper and voicevox adapters,
although they too produce a real audio file, return the text-length
estimate instead. -/
theorem c7_duration_source (hashFn : String → String) (henv : HostedEnv)
    (venv : VoicevoxEnv) (genv : GenericEnv)
    (voice region lang vurl gurl apath fmt pcmd pmodel text dir : String)
    (vname : Option String) (fsys : FS) :
    -- OpenAI: fresh success → file-size duration
    (∀ size, fsys (cachePath hashFn (.openai voice) text dir) = none →
      henv.statusCode = 200 → henv.stream = .complete size →
      (openaiSynth hashFn henv voice fsys text dir).1 =
        .ok ⟨some (audioUrlOf hashFn (.openai voice) text),
          ((jsRound ((size : ℚ) / 16000 * 1000) : ℤ) : ℚ)⟩) ∧
    -- Azure: same
    (∀ size, fsys (cachePath hashFn (.azure voice region) text dir) = none →
      henv.statusCode = 200 → henv.stream = .complete size →
      (azureSynth hashFn henv voice region fsys text dir).1 =
        .ok ⟨some (audioUrlOf hashFn (.azure voice region) text),
          ((jsRound ((size : ℚ) / 16000 * 1000) : ℤ) : ℚ)⟩) ∧
    -- Google: same
    (∀ size, fsys (cachePath hashFn (.google lang vname) text dir) = none →
      (googleSynth hashFn 200 (.jsonAudio size) lang vname fsys text dir).1 =
        .ok ⟨some (audioUrlOf hashFn (.google lang vname) text),
          ((jsRound ((size : ℚ) / 16000 * 1000) : ℤ) : ℚ)⟩) ∧
    -- Generic, direct (non-JSON) audio body: same, from the body size
    (fsys (cachePath hashFn (.generic gurl apath fmt) text dir) = none →
      strIncludes genv.contentType "application/json" = false →
      (genericSynth hashFn genv gurl apath fmt fsys text dir).1 =
        .ok ⟨some (audioUrlOf hashFn (.generic gurl apath fmt) text),
          ((jsRound ((genv.rawSize : ℚ) / 16000 * 1000) : ℤ) : ℚ)⟩) ∧
    -- Piper: fresh success produces a real file but returns the estimate
    (∀ size, fsys (cachePath hashFn (.piper true pcmd pmodel) text dir) = none →
      (piperSynth hashFn (.writesFile size) true pcmd pmodel fsys text dir).1 =
        .ok ⟨some (audioUrlOf hashFn (.piper true pcmd pmodel) text),
          estimateDuration text⟩ ∧
      (piperSynth hashFn (.writesFile size) true pcmd pmodel fsys text dir).2.1
          (cachePath hashFn (.piper true pcmd pmodel) text dir) = some size) ∧
    -- Voicevox: fresh success produces a real file but returns the estimate
    (∀ size, fsys (cachePath hashFn (.voicevox vurl) text dir) = none →
      venv.queryOutcome = .ok true → venv.synthOutcome = .ok size →
      (voicevoxSynth hashFn venv vurl fsys text dir).1 =
        .ok ⟨some (audioUrlOf hashFn (.voicevox vurl) text),
          estimateDuration text⟩ ∧
      (voicevoxSynth hashFn venv vurl fsys text dir).2.1
          (cachePath hashFn (.voicevox vurl) text dir) = some size) := by
  refine ⟨?_, ?_, ?_, ?_, ?_, ?_⟩
  · intro size hmiss h200 hstream
    simp [cachePath, cacheKeyInput, cacheExt, pathJoin, String.append_assoc] at hmiss
    simp [openaiSynth, hostedStreamSynth, audioUrlOf, cacheKeyInput, cacheExt,
      pathJoin, hmiss, h200, hstream, getAudioDuration_fsWrite,
      String.append_assoc]
  · intro size hmiss h200 hstream
    simp [cachePath, cacheKeyInput, cacheExt, pathJoin, String.append_assoc] at hmiss
    simp [azureSynth, hostedStreamSynth, audioUrlOf, cacheKeyInput, cacheExt,
      pathJoin, hmiss, h200, hstream, getAudioDuration_fsWrite,
      String.append_assoc]
  · intro size hmiss
    simp [cachePath, cacheKeyInput, cacheExt, pathJoin, String.append_assoc] at hmiss
    simp [googleSynth, audioUrlOf, cacheKeyInput, cacheExt, pathJoin, hmiss,
      getAudioDuration_fsWrite, String.append_assoc]
  · intro hmiss hct
    simp [cachePath, cacheKeyInput, cacheExt, pathJoin, String.append_assoc] at hmiss
    simp [genericSynth, audioUrlOf, cacheKeyInput, cacheExt, pathJoin, hmiss,
      hct, getAudioDuration_fsWrite, String.append_assoc]
  · intro size hmiss
    simp [cachePath, cacheKeyInput, cacheExt, pathJoin, String.append_assoc] at hmiss
    constructor
    · simp [piperSynth, audioUrlOf, cacheKeyInput, cacheExt, pathJoin, hmiss,
        String.append_assoc]
    · simp [piperSynth, cachePath, cacheKeyInput, cacheExt, pathJoin, hmiss,
        fsWrite, String.append_assoc]
  · intro size hmiss hq hs
    simp [cachePath, cacheKeyInput, cacheExt, pathJoin, String.append_assoc] at hmiss
    constructor
    · simp [voicevoxSynth, audioUrlOf, cacheKeyInput, cacheExt, pathJoin,
        hmiss, hq, hs, String.append_assoc]
    · simp [voicevoxSynth, cachePath, cacheKeyInput, cacheExt, pathJoin,
        hmiss, hq, hs, fsWrite, String.append_assoc]

/-- C7 witness: piper with a 16000-byte output for the text `"hi"`. -/
theorem c7_duration_source_witness :
    (piperSynth hash0 (.writesFile 16000) true "piper" "m" emptyFS "hi" "x").1 =
      .ok ⟨some (audioUrlOf hash0 (.piper true "piper" "m") "hi"),
        estimateDuration "hi"⟩ ∧
    (piperSynth hash0 (.writesFile 16000) true "piper" "m" emptyFS "hi" "x").2.1
        (cachePath hash0 (.piper true "piper" "m") "hi" "x") = some 16000 :=
  (c7_duration_source hash0 ⟨200, .complete 0⟩ ⟨.error (), .error ()⟩
      ⟨200, "", 0, none⟩ "v" "r" "l" "u" "u" "a" "f" "piper" "m" "hi" "x"
      none emptyFS).2.2.2.2.1 16000 rfl

/-! ### C8 — partial files at the canonical cache path -/

/-- C8 counterexample: the OpenAI adapter streams the response body
directly into the canonical cache path; when the stream fails after 5
bytes, the call rejects AND a 5-byte half-written file remains visible at
that exact path — the next cache check will treat it as a hit. -/
theorem c8_counterexample :
    (openaiSynth hash0 ⟨200, .failsAfter 5⟩ "alloy" emptyFS "hi" "out").1 =
      SynthOutcome.rejected JsErr.streamError ∧
    (openaiSynth hash0 ⟨200, .failsAfter 5⟩ "alloy" emptyFS "hi" "out").2.1
      (cachePath hash0 (.openai "alloy") "hi" "out") = some 5 := by
  constructor
  · rfl
  · show fsWrite emptyFS "out/k.mp3" 5 (cachePath hash0 (.openai "alloy") "hi" "out") = some 5
    simp [cachePath, cacheKeyInput, cacheExt, pathJoin, hash0, fsWrite]

/-- Frame property: a synthesize call can only modify the canonical cache
path for its input; every other path is untouched. -/
theorem synth_frame (hashFn : String → String) (env : Env)
    (a : Adapter) (fsys : FS) (text outputDir : String) :
    ∀ p, p ≠ cachePath hashFn a text outputDir →
      (runSynthesize hashFn env a fsys text outputDir).2.1 p = fsys p := by
  cases a with
  | piper available command model =>
      simp only [runSynthesize, piperSynth, cachePath, cacheKeyInput, cacheExt,
        pathJoin, String.append_assoc]
      intro p hp
      split
      · rfl
      · split
        · rfl
        · split
          · rfl
          · exact fsWrite_ne _ _ _ _ hp
          · rfl
  | voicevox baseUrl =>
      simp only [runSynthesize, voicevoxSynth, cachePath, cacheKeyInput,
        cacheExt, pathJoin, String.append_assoc]
      intro p hp
      split
      · rfl
      · split
        · rfl
        · split
          · rfl
          · split
            · rfl
            · exact fsWrite_ne _ _ _ _ hp
  | openai voice =>
      simp only [runSynthesize, openaiSynth, hostedStreamSynth, cachePath,
        cacheKeyInput, cacheExt, pathJoin, String.append_assoc]
      intro p hp
      split
      · rfl
      · split
        · rfl
        · split
          · exact fsWrite_ne _ _ _ _ hp
          · exact fsWrite_ne _ _ _ _ hp
  | azure voice region =>
      simp only [runSynthesize, azureSynth, hostedStreamSynth, cachePath,
        cacheKeyInput, cacheExt, pathJoin, String.append_assoc]
      intro p hp
      split
      · rfl
      · split
        · rfl
        · split
          · exact fsWrite_ne _ _ _ _ hp
          · exact fsWrite_ne _ _ _ _ hp
  | google lang vname =>
      simp only [runSynthesize, googleSynth, cachePath, cacheKeyInput,
        cacheExt, pathJoin, String.append_assoc]
      intro p hp
      split
      · rfl
      · split
        · rfl
        · split
          · rfl
          · rfl
          · exact fsWrite_ne _ _ _ _ hp
  | generic url apath fmt =>
      simp only [runSynthesize, genericSynth, cachePath, cacheKeyInput,
        cacheExt, pathJoin, String.append_assoc]
      intro p hp
      split
      · rfl
      · split
        · split
          · rfl
          · split
            · rfl
            · split
              · split
                · rfl
                · exact fsWrite_ne _ _ _ _ hp
              · rfl
        · exact fsWrite_ne _ _ _ _ hp
  | custom command =>
      simp only [runSynthesize, customSynth, cachePath, cacheKeyInput,
        cacheExt, pathJoin, String.append_assoc]
      intro p hp
      split
      · split
        · rfl
        · exact fsWrite_ne _ _ _ _ hp
      · rfl
  | dummy => exact fun p _ => rfl

/-- A call that resolves with a non-null audioUrl leaves a file at the
canonical cache path. -/
theorem synth_ok_writes (hashFn : String → String) (env : Env)
    (a : Adapter) (fsys : FS) (text outputDir : String) :
    ∀ r url, (runSynthesize hashFn env a fsys text outputDir).1 = .ok r →
      r.audioUrl = some url →
      ((runSynthesize hashFn env a fsys text outputDir).2.1
        (cachePath hashFn a text outputDir)).isSome := by
  cases a with
  | piper available command model =>
      simp only [runSynthesize, piperSynth, cachePath, cacheKeyInput, cacheExt,
        pathJoin, String.append_assoc]
      intro r url h hurl
      revert h
      split
      · next hc => exact fun _ => hc
      · split
        · exact fun h => by
            have hxr := SynthOutcome.ok.inj h; subst hxr
            exact Option.noConfusion hurl
        · split
          · exact fun h => by
              have hxr := SynthOutcome.ok.inj h; subst hxr
              exact Option.noConfusion hurl
          · exact fun _ => by simp [fsWrite]
          · exact fun h => by
              have hxr := SynthOutcome.ok.inj h; subst hxr
              exact Option.noConfusion hurl
  | voicevox baseUrl =>
      simp only [runSynthesize, voicevoxSynth, cachePath, cacheKeyInput,
        cacheExt, pathJoin, String.append_assoc]
      intro r url h hurl
      revert h
      split
      · next hc => exact fun _ => hc
      · split
        · exact fun h => by
            have hxr := SynthOutcome.ok.inj h; subst hxr
            exact Option.noConfusion hurl
        · split
          · exact fun h => by
              have hxr := SynthOutcome.ok.inj h; subst hxr
              exact Option.noConfusion hurl
          · split
            · exact fun h => by
                have hxr := SynthOutcome.ok.inj h; subst hxr
                exact Option.noConfusion hurl
            · exact fun _ => by simp [fsWrite]
  | openai voice =>
      simp only [runSynthesize, openaiSynth, hostedStreamSynth, cachePath,
        cacheKeyInput, cacheExt, pathJoin, String.append_assoc]
      intro r url h hurl
      revert h
      split
      · next hc => exact fun _ => hc
      · split
        · exact fun h => SynthOutcome.noConfusion h
        · split
          · exact fun _ => by simp [fsWrite]
          · exact fun h => SynthOutcome.noConfusion h
  | azure voice region =>
      simp only [runSynthesize, azureSynth, hostedStreamSynth, cachePath,
        cacheKeyInput, cacheExt, pathJoin, String.append_assoc]
      intro r url h hurl
      revert h
      split
      · next hc => exact fun _ => hc
      · split
        · exact fun h => SynthOutcome.noConfusion h
        · split
          · exact fun _ => by simp [fsWrite]
          · exact fun h => SynthOutcome.noConfusion h
  | google lang vname =>
      simp only [runSynthesize, googleSynth, cachePath, cacheKeyInput,
        cacheExt, pathJoin, String.append_assoc]
      intro r url h hurl
      revert h
      split
      · next hc => exact fun _ => hc
      · split
        · exact fun h => SynthOutcome.noConfusion h
        · split
          · exact fun h => SynthOutcome.noConfusion h
          · exact fun h => SynthOutcome.noConfusion h
          · exact fun _ => by simp [fsWrite]
  | generic url apath fmt =>
      simp only [runSynthesize, genericSynth, cachePath, cacheKeyInput,
        cacheExt, pathJoin, String.append_assoc]
      intro r url2 h hurl
      revert h
      split
      · next hc => exact fun _ => hc
      · split
        · split
          · exact fun h => SynthOutcome.noConfusion h
          · split
            · exact fun h => SynthOutcome.noConfusion h
            · split
              · split
                · exact fun h => SynthOutcome.noConfusion h
                · exact fun _ => by simp [fsWrite]
              · exact fun h => SynthOutcome.noConfusion h
        · exact fun _ => by simp [fsWrite]
  | custom command =>
      simp only [runSynthesize, customSynth, cachePath, cacheKeyInput,
        cacheExt, pathJoin, String.append_assoc]
      intro r url h hurl
      revert h
      split
      · split
        · exact fun h => SynthOutcome.noConfusion h
        · exact fun _ => by simp [fsWrite]
      · exact fun h => SynthOutcome.noConfusion h
  | dummy =>
      exact fun r url h hurl => by
        cases h; exact Option.noConfusion hurl

/-- C8 (amended): every adapter touches at most its canonical cache path
(one file per synthesis), and a resolved call with audio leaves a file
there; however the streaming hosted adapters write directly to that path,
so a failed call may ALSO leave a half-written file visible there (no
temporary location is used), which the next cache-hit check observes. -/
theorem c8_single_file_writes (hashFn : String → String) (env : Env)
    (a : Adapter) (fsys : FS) (text outputDir : String) :
    (∀ p, p ≠ cachePath hashFn a text outputDir →
      (runSynthesize hashFn env a fsys text outputDir).2.1 p = fsys p) ∧
    (∀ r url, (runSynthesize hashFn env a fsys text outputDir).1 = .ok r →
      r.audioUrl = some url →
      ((runSynthesize hashFn env a fsys text outputDir).2.1
        (cachePath hashFn a text outputDir)).isSome) :=
  ⟨synth_frame hashFn env a fsys text outputDir,
    synth_ok_writes hashFn env a fsys text outputDir⟩

/-- C8 witness: a fresh successful piper synthesis writes only the
canonical path and leaves the file there. -/
theorem c8_single_file_writes_witness :
    (runSynthesize hash0 { env0 with piperExec := .writesFile 9 }
        (.piper true "piper" "m") emptyFS "hi" "out").2.1 "other" =
      emptyFS "other" ∧
    ((runSynthesize hash0 { env0 with piperExec := .writesFile 9 }
        (.piper true "piper" "m") emptyFS "hi" "out").2.1
      (cachePath hash0 (.piper true "piper" "m") "hi" "out")).isSome :=
  ⟨(c8_single_file_writes hash0 { env0 with piperExec := .writesFile 9 }
      (.piper true "piper" "m") emptyFS "hi" "out").1 "other" (by decide),
    (c8_single_file_writes hash0 { env0 with piperExec := .writesFile 9 }
      (.piper true "piper" "m") emptyFS "hi" "out").2
      ⟨some "/audio/k.wav", estimateDuration "hi"⟩ "/audio/k.wav" rfl rfl⟩

/-! ### C6 — transport/protocol errors of the hosted adapters -/

/-- C6 counterexample: the generic hosted adapter never inspects the
status code — on a 500 response with a non-JSON content type it RESOLVES,
persisting the 12-byte error page as audio, instead of rejecting as the
claim requires for every non-2xx hosted response. -/
theorem c6_counterexample :
    genv500.statusCode = 500 ∧
    (genericSynth hash0 genv500 "http://x" "audio" "mp3" emptyFS "hi" "out").1 =
      SynthOutcome.ok ⟨some "/audio/k.mp3", 1⟩ ∧
    (genericSynth hash0 genv500 "http://x" "audio" "mp3" emptyFS "hi" "out").2.1
      "out/k.mp3" = some 12 := by
  refine ⟨rfl, ?_, rfl⟩
  show SynthOutcome.ok ⟨some "/audio/k.mp3",
    getAudioDuration (fsWrite emptyFS "out/k.mp3" 12) "out/k.mp3"⟩ = _
  rw [getAudioDuration_fsWrite]
  norm_num [jsRound]

/-- C6 (amended): the three named hosted adapters reject every non-2xx
response before reading the body; the generic adapter rejects on malformed
JSON and on a missing field at the configured response path, but does NOT
check the status code — a non-2xx response with a non-JSON content type
resolves, its body persisted as audio. No hosted adapter retries: each
call performs at most one network request and no process invocation. -/
theorem c6_transport_errors (hashFn : String → String) (henv : HostedEnv)
    (genv : GenericEnv) (voice region lang gurl apath fmt text dir : String)
    (vname : Option String) (gstatus : Nat) (gbody : GoogleBody) (fsys : FS) :
    (fsys (cachePath hashFn (.openai voice) text dir) = none →
      henv.statusCode ≠ 200 →
      (openaiSynth hashFn henv voice fsys text dir).1 =
        .rejected (.apiError "openai" henv.statusCode)) ∧
    (fsys (cachePath hashFn (.azure voice region) text dir) = none →
      henv.statusCode ≠ 200 →
      (azureSynth hashFn henv voice region fsys text dir).1 =
        .rejected (.apiError "azure" henv.statusCode)) ∧
    (fsys (cachePath hashFn (.google lang vname) text dir) = none →
      gstatus ≠ 200 →
      (googleSynth hashFn gstatus gbody lang vname fsys text dir).1 =
        .rejected (.apiError "google" gstatus)) ∧
    (fsys (cachePath hashFn (.generic gurl apath fmt) text dir) = none →
      strIncludes genv.contentType "application/json" = true →
      genv.parsed = none →
      (genericSynth hashFn genv gurl apath fmt fsys text dir).1 =
        .rejected .jsonParseError) ∧
    (fsys (cachePath hashFn (.generic gurl apath fmt) text dir) = none →
      strIncludes genv.contentType "application/json" = true →
      ∀ v, genv.parsed = some v → jPathExtract apath v = none →
      (genericSynth hashFn genv gurl apath fmt fsys text dir).1 =
        .rejected .audioDataNotFound) ∧
    (fsys (cachePath hashFn (.generic gurl apath fmt) text dir) = none →
      strIncludes genv.contentType "application/json" = false →
      ∃ r, (genericSynth hashFn genv gurl apath fmt fsys text dir).1 = .ok r) ∧
    ((openaiSynth hashFn henv voice fsys text dir).2.2.countP
        (fun e => e.isNetOrProc) ≤ 1 ∧
     (azureSynth hashFn henv voice region fsys text dir).2.2.countP
        (fun e => e.isNetOrProc) ≤ 1 ∧
     (googleSynth hashFn gstatus gbody lang vname fsys text dir).2.2.countP
        (fun e => e.isNetOrProc) ≤ 1 ∧
     (genericSynth hashFn genv gurl apath fmt fsys text dir).2.2.countP
        (fun e => e.isNetOrProc) ≤ 1) := by
  refine ⟨?_, ?_, ?_, ?_, ?_, ?_, ?_, ?_, ?_, ?_⟩
  · intro hmiss hst
    simp [cachePath, cacheKeyInput, cacheExt, pathJoin, String.append_assoc] at hmiss
    simp [openaiSynth, hostedStreamSynth, pathJoin, hmiss, hst,
      String.append_assoc]
  · intro hmiss hst
    simp [cachePath, cacheKeyInput, cacheExt, pathJoin, String.append_assoc] at hmiss
    simp [azureSynth, hostedStreamSynth, pathJoin, hmiss, hst,
      String.append_assoc]
  · intro hmiss hst
    simp [cachePath, cacheKeyInput, cacheExt, pathJoin, String.append_assoc] at hmiss
    simp [googleSynth, pathJoin, hmiss, hst, String.append_assoc]
  · intro hmiss hct hparse
    simp [cachePath, cacheKeyInput, cacheExt, pathJoin, String.append_assoc] at hmiss
    simp [genericSynth, pathJoin, hmiss, hct, hparse, String.append_assoc]
  · intro hmiss hct v hparse hext
    simp [cachePath, cacheKeyInput, cacheExt, pathJoin, String.append_assoc] at hmiss
    simp [genericSynth, pathJoin, hmiss, hct, hparse, hext, String.append_assoc]
  · intro hmiss hct
    simp [cachePath, cacheKeyInput, cacheExt, pathJoin, String.append_assoc] at hmiss
    simp [genericSynth, pathJoin, hmiss, hct, String.append_assoc]
  · simp only [openaiSynth, hostedStreamSynth]
    split
    · simp [Effect.isNetOrProc]
    · split
      · simp [Effect.isNetOrProc]
      · split <;> simp [Effect.isNetOrProc]
  · simp only [azureSynth, hostedStreamSynth]
    split
    · simp [Effect.isNetOrProc]
    · split
      · simp [Effect.isNetOrProc]
      · split <;> simp [Effect.isNetOrProc]
  · simp only [googleSynth]
    split
    · simp [Effect.isNetOrProc]
    · split
      · simp [Effect.isNetOrProc]
      · split <;> simp [Effect.isNetOrProc]
  · simp only [genericSynth]
    split
    · simp [Effect.isNetOrProc]
    · split
      · split
        · simp [Effect.isNetOrProc]
        · split
          · simp [Effect.isNetOrProc]
          · split
            · split <;> simp [Effect.isNetOrProc]
            · simp [Effect.isNetOrProc]
      · simp [Effect.isNetOrProc]

/-- C6 witness: a 503 from OpenAI rejects with the provider error; a
malformed-JSON generic response rejects with the parse error. -/
theorem c6_transport_errors_witness :
    (openaiSynth hash0 ⟨503, .failsAfter 0⟩ "alloy" emptyFS "hi" "out").1 =
      .rejected (.apiError "openai" 503) ∧
    (genericSynth hash0 ⟨200, "application/json", 3, none⟩ "u" "audio" "mp3"
        emptyFS "hi" "out").1 = .rejected .jsonParseError :=
  ⟨(c6_transport_errors hash0 ⟨503, .failsAfter 0⟩
      ⟨200, "application/json", 3, none⟩ "alloy" "r" "l" "u" "audio" "mp3"
      "hi" "out" none 200 .notJson emptyFS).1 rfl (by decide),
    (c6_transport_errors hash0 ⟨503, .failsAfter 0⟩
      ⟨200, "application/json", 3, none⟩ "alloy" "r" "l" "u" "audio" "mp3"
      "hi" "out" none 200 .notJson emptyFS).2.2.2.1 rfl (by decide) rfl⟩

/-! ### C3 — cache stability and cache-hit short-circuit -/

/-- The custom-command adapter rejects every call with the `path`
`ReferenceError` before doing anything (helper shared by several
theorems). -/
theorem custom_rejects (hashFn : String → String) (env : Env) (fsys : FS)
    (command text outputDir : String) :
    runSynthesize hashFn env (.custom command) fsys text outputDir =
      (SynthOutcome.rejected (JsErr.referenceError "path"), fsys,
        ([] : List Effect)) := by
  simp [runSynthesize, customSynth, customScopeBindsPath,
    customSynthesizeScopeNames]

/-- Any non-null audioUrl an adapter resolves with is the canonical
content-addressed URL: a function of the hash of (text,
voice-affecting parameters) and the format only — never of time. -/
theorem synth_url_canonical (hashFn : String → String) (env : Env)
    (a : Adapter) (fsys : FS) (text outputDir : String) :
    ∀ r url, (runSynthesize hashFn env a fsys text outputDir).1 = .ok r →
      r.audioUrl = some url → url = audioUrlOf hashFn a text := by
  cases a with
  | piper available command model =>
      simp only [runSynthesize, piperSynth, audioUrlOf, cacheKeyInput,
        cacheExt, pathJoin, String.append_assoc]
      intro r url h hurl
      revert h
      split
      · exact fun h => by
          have hxr := SynthOutcome.ok.inj h; subst hxr
          exact (Option.some.inj hurl).symm
      · split
        · exact fun h => by
            have hxr := SynthOutcome.ok.inj h; subst hxr
            exact Option.noConfusion hurl
        · split
          · exact fun h => by
              have hxr := SynthOutcome.ok.inj h; subst hxr
              exact Option.noConfusion hurl
          · exact fun h => by
              have hxr := SynthOutcome.ok.inj h; subst hxr
              exact (Option.some.inj hurl).symm
          · exact fun h => by
              have hxr := SynthOutcome.ok.inj h; subst hxr
              exact Option.noConfusion hurl
  | voicevox baseUrl =>
      simp only [runSynthesize, voicevoxSynth, audioUrlOf, cacheKeyInput,
        cacheExt, pathJoin, String.append_assoc]
      intro r url h hurl
      revert h
      split
      · exact fun h => by
          have hxr := SynthOutcome.ok.inj h; subst hxr
          exact (Option.some.inj hurl).symm
      · split
        · exact fun h => by
            have hxr := SynthOutcome.ok.inj h; subst hxr
            exact Option.noConfusion hurl
        · split
          · exact fun h => by
              have hxr := SynthOutcome.ok.inj h; subst hxr
              exact Option.noConfusion hurl
          · split
            · exact fun h => by
                have hxr := SynthOutcome.ok.inj h; subst hxr
                exact Option.noConfusion hurl
            · exact fun h => by
                have hxr := SynthOutcome.ok.inj h; subst hxr
                exact (Option.some.inj hurl).symm
  | openai voice =>
      simp only [runSynthesize, openaiSynth, hostedStreamSynth, audioUrlOf,
        cacheKeyInput, cacheExt, pathJoin, String.append_assoc]
      intro r url h hurl
      revert h
      split
      · exact fun h => by
          have hxr := SynthOutcome.ok.inj h; subst hxr
          exact (Option.some.inj hurl).symm
      · split
        · exact fun h => SynthOutcome.noConfusion h
        · split
          · exact fun h => by
              have hxr := SynthOutcome.ok.inj h; subst hxr
              exact (Option.some.inj hurl).symm
          · exact fun h => SynthOutcome.noConfusion h
  | azure voice region =>
      simp only [runSynthesize, azureSynth, hostedStreamSynth, audioUrlOf,
        cacheKeyInput, cacheExt, pathJoin, String.append_assoc]
      intro r url h hurl
      revert h
      split
      · exact fun h => by
          have hxr := SynthOutcome.ok.inj h; subst hxr
          exact (Option.some.inj hurl).symm
      · split
        · exact fun h => SynthOutcome.noConfusion h
        · split
          · exact fun h => by
              have hxr := SynthOutcome.ok.inj h; subst hxr
              exact (Option.some.inj hurl).symm
          · exact fun h => SynthOutcome.noConfusion h
  | google lang vname =>
      simp only [runSynthesize, googleSynth, audioUrlOf, cacheKeyInput,
        cacheExt, pathJoin, String.append_assoc]
      intro r url h hurl
      revert h
      split
      · exact fun h => by
          have hxr := SynthOutcome.ok.inj h; subst hxr
          exact (Option.some.inj hurl).symm
      · split
        · exact fun h => SynthOutcome.noConfusion h
        · split
          · exact fun h => SynthOutcome.noConfusion h
          · exact fun h => SynthOutcome.noConfusion h
          · exact fun h => by
              have hxr := SynthOutcome.ok.inj h; subst hxr
              exact (Option.some.inj hurl).symm
  | generic url apath fmt =>
      simp only [runSynthesize, genericSynth, audioUrlOf, cacheKeyInput,
        cacheExt, pathJoin, String.append_assoc]
      intro r url2 h hurl
      revert h
      split
      · exact fun h => by
          have hxr := SynthOutcome.ok.inj h; subst hxr
          exact (Option.some.inj hurl).symm
      · split
        · split
          · exact fun h => SynthOutcome.noConfusion h
          · split
            · exact fun h => SynthOutcome.noConfusion h
            · split
              · split
                · exact fun h => SynthOutcome.noConfusion h
                · exact fun h => by
                    have hxr := SynthOutcome.ok.inj h; subst hxr
                    exact (Option.some.inj hurl).symm
              · exact fun h => SynthOutcome.noConfusion h
        · exact fun h => by
            have hxr := SynthOutcome.ok.inj h; subst hxr
            exact (Option.some.inj hurl).symm
  | custom command =>
      simp only [runSynthesize, customSynth, audioUrlOf, cacheKeyInput,
        cacheExt, pathJoin, String.append_assoc]
      intro r url h hurl
      revert h
      split
      · split
        · exact fun h => SynthOutcome.noConfusion h
        · exact fun h => by
            have hxr := SynthOutcome.ok.inj h; subst hxr
            exact (Option.some.inj hurl).symm
      · exact fun h => SynthOutcome.noConfusion h
  | dummy =>
      exact fun r url h hurl => by
        cases h; exact Option.noConfusion hurl

/-- When the canonical cache file exists, every adapter with a cache check
(all but custom and dummy) short-circuits: it resolves with the canonical
URL, changes nothing, and performs only the one existence check — no
network request, no process invocation. -/
theorem synth_cache_hit (hashFn : String → String) (env : Env)
    (a : Adapter) (fsys : FS) (text outputDir : String)
    (hhit : (fsys (cachePath hashFn a text outputDir)).isSome)
    (hc : ∀ c, a ≠ Adapter.custom c) (hd : a ≠ Adapter.dummy) :
    ∃ q, (runSynthesize hashFn env a fsys text outputDir).1 =
        .ok ⟨some (audioUrlOf hashFn a text), q⟩ ∧
      (runSynthesize hashFn env a fsys text outputDir).2.1 = fsys ∧
      ((runSynthesize hashFn env a fsys text outputDir).2.2.all
        (fun e => !e.isNetOrProc)) = true := by
  cases a with
  | piper available command model =>
      simp [cachePath, cacheKeyInput, cacheExt, pathJoin,
        String.append_assoc] at hhit
      refine ⟨estimateDuration text, ?_⟩
      simp [runSynthesize, piperSynth, audioUrlOf, cacheKeyInput, cacheExt,
        pathJoin, String.append_assoc, hhit, Effect.isNetOrProc]
  | voicevox baseUrl =>
      simp [cachePath, cacheKeyInput, cacheExt, pathJoin,
        String.append_assoc] at hhit
      refine ⟨estimateDuration text, ?_⟩
      simp [runSynthesize, voicevoxSynth, audioUrlOf, cacheKeyInput, cacheExt,
        pathJoin, String.append_assoc, hhit, Effect.isNetOrProc]
  | openai voice =>
      simp [cachePath, cacheKeyInput, cacheExt, pathJoin,
        String.append_assoc] at hhit
      refine ⟨getAudioDuration fsys
        (outputDir ++ ("/" ++ (hashFn (text ++ voice) ++ ".mp3"))), ?_⟩
      simp [runSynthesize, openaiSynth, hostedStreamSynth, audioUrlOf,
        cacheKeyInput, cacheExt, pathJoin, String.append_assoc, hhit,
        Effect.isNetOrProc]
  | azure voice region =>
      simp [cachePath, cacheKeyInput, cacheExt, pathJoin,
        String.append_assoc] at hhit
      refine ⟨getAudioDuration fsys
        (outputDir ++ ("/" ++ (hashFn (text ++ voice) ++ ".mp3"))), ?_⟩
      simp [runSynthesize, azureSynth, hostedStreamSynth, audioUrlOf,
        cacheKeyInput, cacheExt, pathJoin, String.append_assoc, hhit,
        Effect.isNetOrProc]
  | google lang vname =>
      simp [cachePath, cacheKeyInput, cacheExt, pathJoin,
        String.append_assoc] at hhit
      refine ⟨getAudioDuration fsys
        (outputDir ++ ("/" ++ (hashFn (text ++ (lang ++ vname.getD "")) ++ ".mp3"))), ?_⟩
      simp [runSynthesize, googleSynth, audioUrlOf, cacheKeyInput, cacheExt,
        pathJoin, String.append_assoc, hhit, Effect.isNetOrProc]
  | generic url apath fmt =>
      simp [cachePath, cacheKeyInput, cacheExt, pathJoin,
        String.append_assoc] at hhit
      refine ⟨getAudioDuration fsys
        (outputDir ++ ("/" ++ (hashFn (text ++ url) ++ ("." ++ fmt)))), ?_⟩
      simp [runSynthesize, genericSynth, audioUrlOf, cacheKeyInput, cacheExt,
        pathJoin, String.append_assoc, hhit, Effect.isNetOrProc]
  | custom command => exact absurd rfl (hc command)
  | dummy => exact absurd rfl hd

/-- C3 counterexample (two independent failures of the claim as stated):
(i) when piper's first call fails, there is no cache entry, so the SECOND
call performs a fresh process invocation — the cache-hit short-circuit
does not hold for "two consecutive calls" unconditionally; (ii) the
custom-command adapter performs no cache check at all and never resolves,
so two consecutive calls return no audioUrl whatsoever. -/
theorem c3_counterexample :
    ((secondRun hash0 env0 env0 (.piper true "piper" "m") emptyFS "hi" "out").2.2.any
      (fun e => e.isNetOrProc)) = true ∧
    (runSynthesize hash0 env0 (.custom "say {text} {output}") emptyFS "hi" "out").1 =
      SynthOutcome.rejected (JsErr.referenceError "path") := by
  constructor
  · rfl
  · rfl

/-- C3 (amended): if a `synthesize` call resolves with a non-null
audioUrl, that URL is the canonical content-addressed one (a function of
the text and voice-affecting configuration only, never of time), and an
immediately following call for the same text and configuration — whatever
its environment does — resolves with the SAME audioUrl while performing no
network request and no process invocation (it short-circuits on the cache
entry the first call left). Unconditionally ("two consecutive calls") the
claim fails: a failed first call caches nothing and the second call
re-invokes the backend, and the custom-command adapter has no cache check
and never resolves. -/
theorem c3_cache_stability (hashFn : String → String) (env1 env2 : Env)
    (a : Adapter) (fsys : FS) (text outputDir : String)
    (r : SynthesisResult) (url : String)
    (h1 : (runSynthesize hashFn env1 a fsys text outputDir).1 = .ok r)
    (h2 : r.audioUrl = some url) :
    url = audioUrlOf hashFn a text ∧
    (∃ r2, (secondRun hashFn env1 env2 a fsys text outputDir).1 = .ok r2 ∧
      r2.audioUrl = some url) ∧
    ((secondRun hashFn env1 env2 a fsys text outputDir).2.2.all
      (fun e => !e.isNetOrProc)) = true := by
  have hurl := synth_url_canonical hashFn env1 a fsys text outputDir r url h1 h2
  have hc : ∀ c, a ≠ Adapter.custom c := by
    intro c hac
    subst hac
    rw [custom_rejects] at h1
    exact SynthOutcome.noConfusion h1
  have hd : a ≠ Adapter.dummy := by
    intro had
    subst had
    cases h1
    exact Option.noConfusion h2
  have hfile := synth_ok_writes hashFn env1 a fsys text outputDir r url h1 h2
  obtain ⟨q, hok, hfs, heff⟩ :=
    synth_cache_hit hashFn env2 a
      (runSynthesize hashFn env1 a fsys text outputDir).2.1 text outputDir
      hfile hc hd
  exact ⟨hurl, ⟨⟨some (audioUrlOf hashFn a text), q⟩, hok, by rw [hurl]⟩, heff⟩

/-- C3 witness: a successful first piper synthesis, then a second call in
an environment where every external call would fail — it still returns the
same URL, touching neither network nor process. -/
theorem c3_cache_stability_witness :
    ("/audio/k.wav" = audioUrlOf hash0 (.piper true "piper" "m") "hi") ∧
    (∃ r2, (secondRun hash0 { env0 with piperExec := .writesFile 9 } env0
        (.piper true "piper" "m") emptyFS "hi" "out").1 = .ok r2 ∧
      r2.audioUrl = some "/audio/k.wav") ∧
    ((secondRun hash0 { env0 with piperExec := .writesFile 9 } env0
        (.piper true "piper" "m") emptyFS "hi" "out").2.2.all
      (fun e => !e.isNetOrProc)) = true :=
  c3_cache_stability hash0 { env0 with piperExec := .writesFile 9 } env0
    (.piper true "piper" "m") emptyFS "hi" "out"
    ⟨some "/audio/k.wav", estimateDuration "hi"⟩ "/audio/k.wav" rfl rfl

end PhantomVRM
